import Mathlib

/-!
Shallow embedding of the `oidc-auth` repository (package `oidc_auth`):
the configuration model (`types.py`), the in-memory session store
(`session.py`, a Python `dict`), and the four controller operations of
`controller.py` (`login`, `callback`, `logout`, `exchange_token`).

Modelling conventions:
* JSON-decoded Python values (`resp.json()`) are `Json` below; `dict.get`
  is `Json.get?`, Python truthiness is `Json.truthy`.
* The mutable `self.session_store` (a `dict`) is threaded explicitly as a
  `Store` (association list with Python-dict update semantics: assignment
  replaces in place when the key exists, otherwise appends).
* The identity provider is an external collaborator: each outbound HTTP
  call is modelled by a function argument giving the provider's response
  to that call.  The userinfo request is determined by the bearer token
  sent (`Authorization: Bearer {access_token}` in the source), so the
  userinfo collaborator is indexed by that token value (`Option Json`;
  `none` is Python `None`).
* `uuid.uuid4()` is external randomness: each generated value is an
  explicit argument of the operation that draws it.
* `fastapi.responses.RedirectResponse` is starlette's: default status
  code 307, and the `Location` header is `urllib.parse.quote` of the url
  with `safe = ":/%#?=@[]!$&'()*+,;"` (modelled by `locationQuote`).
  `set_cookie`/`delete_cookie` are modelled as explicit cookie
  operations on the response.
-/

/-- JSON value as decoded by `resp.json()` in the Python source. -/
inductive Json where
  | null : Json
  | bool (b : Bool) : Json
  | num (n : Int) : Json
  | str (s : String) : Json
  | arr (xs : List Json) : Json
  | obj (fields : List (String × Json)) : Json

namespace Json

/-- Python `dict.get(key)` on a JSON object: first binding of the key, else
`none` (Python `None`); `get` on a non-dict is modelled as `none` as well,
matching the absent-key outcome. -/
def get? : Json → String → Option Json
  | obj fields, k => lookupField fields k
  | _, _ => none
where
  lookupField : List (String × Json) → String → Option Json
    | [], _ => none
    | (k2, v) :: rest, k => if k2 = k then some v else lookupField rest k

/-- Python truthiness of a JSON-decoded value: `None`, `False`, `0`, `""`,
`[]` and `{}` are falsy, everything else truthy. -/
def truthy : Json → Bool
  | null => false
  | bool b => b
  | num n => n != 0
  | str s => s != ""
  | arr xs => !xs.isEmpty
  | obj fields => !fields.isEmpty

/-- Python truthiness of an optional JSON value (`None` is falsy). -/
def truthyOpt : Option Json → Bool
  | none => false
  | some j => truthy j

end Json

/-- Allowed values of the `COOKIE_SAMESITE` setting
(`Literal["lax", "strict", "none"]` in `types.py`). -/
inductive SameSite where
  | lax : SameSite
  | strict : SameSite
  | none : SameSite
  deriving DecidableEq, Repr

/-- Rendering of a `SameSite` value as the configuration string. -/
def SameSite.toString : SameSite → String
  | .lax => "lax"
  | .strict => "strict"
  | .none => "none"

/-- OIDCSettings from `types.py`: a pydantic `BaseSettings` model.  The six
credential/endpoint fields are required (`Field(...)`), the rest carry the
defaults written in the source. -/
structure OIDCSettings where
  CLIENT_ID : String
  CLIENT_SECRET : String
  ISSUER_URL : String
  AUTHORIZE_URL : String
  TOKEN_URL : String
  USERINFO_URL : String
  REDIRECT_URI : String := "http://localhost:8000/oidc/callback"
  SCOPE : String := "openid email profile"
  COOKIE_SECURE : Bool := false
  COOKIE_SAMESITE : SameSite := .lax
  deriving DecidableEq, Repr

/-- Session record stored by `callback`:
`{"user": user_info, "access_token": access_token}`.  `access_token` is
`tokens.get("access_token")`, which may be Python `None` (`none` here). -/
structure SessionRecord where
  user : Json
  access_token : Option Json

/-- In-memory session store (`InMemorySessionStore`, a Python `dict` mapping
session id to session record), as an association list without duplicate
keys along the operations below. -/
abbrev Store := List (String × SessionRecord)

namespace Store

/-- Python `store[key]` / `store.get(key)`: first binding of the key. -/
def get? : Store → String → Option SessionRecord
  | [], _ => none
  | (k2, v) :: rest, k => if k2 = k then some v else get? rest k

/-- Python `key in store`. -/
def containsKey (s : Store) (k : String) : Bool :=
  (s.get? k).isSome

/-- Python `store[key] = value`: replace the binding of the key in place
when it exists, otherwise append a new binding at the end (Python dicts
preserve insertion order). -/
def set : Store → String → SessionRecord → Store
  | [], k, v => [(k, v)]
  | (k2, w) :: rest, k, v =>
      if k2 = k then (k, v) :: rest else (k2, w) :: set rest k v

/-- Python `del store[key]`: remove the binding of the key (unique in a
Python dict, so removing the first binding). -/
def erase : Store → String → Store
  | [], _ => []
  | (k2, w) :: rest, k =>
      if k2 = k then rest else (k2, w) :: erase rest k

/-- Well-formedness of a store as the image of a Python dict: keys are
pairwise distinct. -/
def wf (s : Store) : Prop :=
  (s.map Prod.fst).Nodup

end Store

/-- HTTP response from the identity provider, as observed by the source
through `resp.status_code` and `resp.json()` (bodies are assumed to decode
as JSON; a non-JSON body would raise inside `resp.json()` and is outside
this model). -/
structure HttpResponse where
  status : Nat
  body : Json

/-- Cookie mutation performed on a response: `response.set_cookie(...)`
with the flags the source passes, or `response.delete_cookie(name)`. -/
inductive CookieOp where
  | setCookie (name value : String) (httponly secure : Bool) (samesite : SameSite) : CookieOp
  | deleteCookie (name : String) : CookieOp
  deriving DecidableEq, Repr

/-- Response returned by a controller operation: status code, optional
`Location` header, optional JSON body, and the cookie operations applied. -/
structure Response where
  status : Nat
  location : Option String
  jsonBody : Option Json
  cookies : List CookieOp

/-- Uppercase hexadecimal digit for `n < 16`. -/
def hexDigitChar (n : Nat) : Char :=
  if n < 10 then Char.ofNat (48 + n) else Char.ofNat (55 + n)

/-- Characters (beyond letters and digits) that `urllib.parse.quote` leaves
unescaped when starlette builds a `Location` header: the always-safe
`_ . - ~` plus starlette's safe set `: / % # ? = @ [ ] ! $ & ( ) * + , ;`
and the apostrophe (code point 39). -/
def locationSafeChars : List Char :=
  ['_', '.', '-', '~', ':', '/', '%', '#', '?', '=', '@', '[', ']',
   '!', '$', '&', Char.ofNat 39, '(', ')', '*', '+', ',', ';']

/-- Whether a character survives `urllib.parse.quote` unescaped under
starlette's safe set (letters and digits always do). -/
def isLocationSafe (c : Char) : Bool :=
  c.isAlphanum || locationSafeChars.contains c

/-- UTF-8 encoding of a character, each byte as a `Nat`. -/
def utf8Bytes (c : Char) : List Nat :=
  let n := c.toNat
  if n < 0x80 then [n]
  else if n < 0x800 then
    [0xC0 + n / 0x40, 0x80 + n % 0x40]
  else if n < 0x10000 then
    [0xE0 + n / 0x1000, 0x80 + (n / 0x40) % 0x40, 0x80 + n % 0x40]
  else
    [0xF0 + n / 0x40000, 0x80 + (n / 0x1000) % 0x40,
     0x80 + (n / 0x40) % 0x40, 0x80 + n % 0x40]

/-- Percent-encoding of one byte: `%XX` with uppercase hex. -/
def percentEncodeByte (b : Nat) : String :=
  "%" ++ String.singleton (hexDigitChar (b / 16 % 16))
      ++ String.singleton (hexDigitChar (b % 16))

/-- Quoting of a single character as `urllib.parse.quote` does: safe
characters pass through, the rest have each of their UTF-8 bytes
percent-encoded. -/
def quoteChar (c : Char) : String :=
  if isLocationSafe c then
    String.singleton c
  else
    String.join ((utf8Bytes c).map percentEncodeByte)

/-- The `Location` header starlette's `RedirectResponse` emits for a url:
`quote(str(url), safe=":/%#?=@[]!$&'()*+,;")`. -/
def locationQuote (url : String) : String :=
  String.join (url.data.map quoteChar)

/-- `RedirectResponse(url)` as the source calls it: starlette's default
status code 307 and the percent-quoted `Location` header, no body, no
cookie operations yet. -/
def redirectResponse (url : String) : Response :=
  { status := 307, location := some (locationQuote url), jsonBody := none, cookies := [] }

/-- `JSONResponse(body, status_code)` as the source calls it. -/
def jsonResponse (body : Json) (statusCode : Nat) : Response :=
  { status := statusCode, location := none, jsonBody := some body, cookies := [] }

/-- Python truthiness of an optional string (a query parameter or cookie
fetched with `.get`): `None` and `""` are falsy. -/
def truthyStr : Option String → Bool
  | none => false
  | some s => s != ""

/-- OIDCController.login: builds the authorization url from the `params`
dict in insertion order (`client_id`, `response_type`, `scope`,
`redirect_uri`, `state`), joins `f"{k}={v}"` pairs with `&` (no
percent-encoding in the source itself), and returns
`RedirectResponse(f"{AUTHORIZE_URL}?{query}")`.  The `state` drawn from
`str(uuid.uuid4())` is the explicit argument. -/
def login (cfg : OIDCSettings) (state : String) : Response :=
  let params : List (String × String) :=
    [("client_id", cfg.CLIENT_ID),
     ("response_type", "code"),
     ("scope", cfg.SCOPE),
     ("redirect_uri", cfg.REDIRECT_URI),
     ("state", state)]
  let query := String.intercalate "&" (params.map (fun p => p.1 ++ "=" ++ p.2))
  redirectResponse (cfg.AUTHORIZE_URL ++ "?" ++ query)

/-- OIDCController.callback: `codeParam` is
`request.query_params.get("code")`; `tokenResp` is the provider's response
to the POSTed authorization-code exchange; `userinfo` gives the provider's
response to the userinfo GET carrying `Authorization: Bearer
{access_token}`, indexed by that access token value; `newSessionId` is the
value drawn from `str(uuid.uuid4())`.  Returns the session store after the
call together with the HTTP response. -/
def callback (cfg : OIDCSettings) (store : Store) (codeParam : Option String)
    (tokenResp : HttpResponse) (userinfo : Option Json → HttpResponse)
    (newSessionId : String) : Store × Response :=
  if !truthyStr codeParam then
    (store, jsonResponse (Json.obj [("error", Json.str "Missing code")]) 400)
  else if tokenResp.status ≠ 200 then
    (store, jsonResponse (Json.obj [("error", Json.str "Failed to get token")]) 400)
  else
    let tokens := tokenResp.body
    let access_token := tokens.get? "access_token"
    let user_info := (userinfo access_token).body
    let store2 := store.set newSessionId { user := user_info, access_token := access_token }
    let resp := redirectResponse "/"
    (store2,
     { resp with
       cookies := [CookieOp.setCookie "session_id" newSessionId true
                     cfg.COOKIE_SECURE cfg.COOKIE_SAMESITE] })

/-- OIDCController.logout: `sessionCookie` is
`request.cookies.get("session_id")`; deletes the record when the cookie is
truthy and present in the store, then always redirects to `/login` and
deletes the `session_id` cookie. -/
def logout (store : Store) (sessionCookie : Option String) : Store × Response :=
  let store2 :=
    match sessionCookie with
    | some sid => if sid != "" && store.containsKey sid then store.erase sid else store
    | none => store
  let resp := redirectResponse "/login"
  (store2, { resp with cookies := [CookieOp.deleteCookie "session_id"] })

set_option linter.unusedVariables false in
/-- OIDCController.exchange_token: returns `None` when the session id is
absent from the store or the stored `access_token` is falsy; otherwise
POSTs the token-exchange grant for `targetClient` (the provider's response
to that call is `exchangeResp`) and returns
`new_tokens.get("access_token")` on status 200, `None` otherwise.  The
source never mutates the store here. -/
def exchange_token (store : Store) (sessionId : String) (targetClient : String)
    (exchangeResp : HttpResponse) : Option Json :=
  if !store.containsKey sessionId then
    none
  else
    let subject_token :=
      match store.get? sessionId with
      | some r => r.access_token
      | none => none
    if !Json.truthyOpt subject_token then
      none
    else if exchangeResp.status ≠ 200 then
      none
    else
      exchangeResp.body.get? "access_token"

/-- Store-threaded form of `login`: the method body of `login` in the
source never references `self.session_store`, so the store passes through
untouched. -/
def loginStep (cfg : OIDCSettings) (store : Store) (state : String) : Store × Response :=
  (store, login cfg state)

/-- Store-threaded form of `exchange_token`: the method only reads
`self.session_store` (membership test and lookup), never writes it. -/
def exchangeTokenStep (store : Store) (sessionId : String) (targetClient : String)
    (exchangeResp : HttpResponse) : Store × Option Json :=
  (store, exchange_token store sessionId targetClient exchangeResp)

/-- Whether a callback request takes the success path: truthy `code` and a
200 from the token endpoint. -/
def callbackSucceeds (codeParam : Option String) (tokenResp : HttpResponse) : Bool :=
  truthyStr codeParam && tokenResp.status == 200

/-- One callback request: the `code` query parameter, the token-endpoint
response, and the session id drawn from `uuid.uuid4()` for it. -/
structure CallbackReq where
  codeParam : Option String
  tokenResp : HttpResponse
  newSessionId : String

/-- Runs a sequence of callback requests against the store, threading the
store through (`userinfo` is the provider's userinfo behaviour, shared by
all of them). -/
def runCallbacks (cfg : OIDCSettings) (userinfo : Option Json → HttpResponse)
    (store : Store) : List CallbackReq → Store
  | [] => store
  | r :: rest =>
      runCallbacks cfg userinfo
        (callback cfg store r.codeParam r.tokenResp userinfo r.newSessionId).1 rest

/-- Session ids issued by the successful requests of a sequence. -/
def issuedIds (reqs : List CallbackReq) : List String :=
  (reqs.filter (fun r => callbackSucceeds r.codeParam r.tokenResp)).map
    (fun r => r.newSessionId)

/-- Process environment as the pydantic `BaseSettings` source sees it: a
finite map from variable name to string value (a variable set to the empty
string is present, with value `""`). -/
abbrev Env := List (String × String)

/-- Lookup of an environment variable. -/
def envLookup : Env → String → Option String
  | [], _ => none
  | (k2, v) :: rest, k => if k2 = k then some v else envLookup rest k

/-- Boolean parsing pydantic applies to an environment string for a `bool`
field (case-insensitive member of the usual true/false literal sets). -/
def parseBoolSetting (s : String) : Option Bool :=
  let t := s.toLower
  if t ∈ ["true", "t", "yes", "y", "on", "1"] then some true
  else if t ∈ ["false", "f", "no", "n", "off", "0"] then some false
  else none

/-- Validation pydantic applies for the `Literal["lax", "strict", "none"]`
field: exact match against the three literals. -/
def parseSameSite (s : String) : Option SameSite :=
  if s = "lax" then some SameSite.lax
  else if s = "strict" then some SameSite.strict
  else if s = "none" then some SameSite.none
  else none

/-- Construction of `OIDCSettings` from the environment, as pydantic
`BaseSettings` does with `env_prefix='OIDC_'`: each of the six
`Field(...)` fields is required — construction raises a validation error
when the variable is absent (any present string, including the empty one,
validates as `str`) — and the remaining fields fall back to their
declared defaults when absent, or are parsed/validated when present. -/
def OIDCSettings.fromEnv (env : Env) : Except String OIDCSettings :=
  match envLookup env "OIDC_CLIENT_ID" with
  | none => Except.error "OIDC_CLIENT_ID: field required"
  | some client_id =>
  match envLookup env "OIDC_CLIENT_SECRET" with
  | none => Except.error "OIDC_CLIENT_SECRET: field required"
  | some client_secret =>
  match envLookup env "OIDC_ISSUER_URL" with
  | none => Except.error "OIDC_ISSUER_URL: field required"
  | some issuer_url =>
  match envLookup env "OIDC_AUTHORIZE_URL" with
  | none => Except.error "OIDC_AUTHORIZE_URL: field required"
  | some authorize_url =>
  match envLookup env "OIDC_TOKEN_URL" with
  | none => Except.error "OIDC_TOKEN_URL: field required"
  | some token_url =>
  match envLookup env "OIDC_USERINFO_URL" with
  | none => Except.error "OIDC_USERINFO_URL: field required"
  | some userinfo_url =>
  match
    (match envLookup env "OIDC_COOKIE_SECURE" with
     | none => Except.ok false
     | some s =>
       match parseBoolSetting s with
       | some b => Except.ok b
       | none => Except.error "OIDC_COOKIE_SECURE: value is not a valid boolean") with
  | Except.error e => Except.error e
  | Except.ok cookie_secure =>
  match
    (match envLookup env "OIDC_COOKIE_SAMESITE" with
     | none => Except.ok SameSite.lax
     | some s =>
       match parseSameSite s with
       | some v => Except.ok v
       | none => Except.error "OIDC_COOKIE_SAMESITE: unexpected value") with
  | Except.error e => Except.error e
  | Except.ok cookie_samesite =>
  Except.ok
    { CLIENT_ID := client_id, CLIENT_SECRET := client_secret,
      ISSUER_URL := issuer_url, AUTHORIZE_URL := authorize_url,
      TOKEN_URL := token_url, USERINFO_URL := userinfo_url,
      REDIRECT_URI := (envLookup env "OIDC_REDIRECT_URI").getD "http://localhost:8000/oidc/callback",
      SCOPE := (envLookup env "OIDC_SCOPE").getD "openid email profile",
      COOKIE_SECURE := cookie_secure, COOKIE_SAMESITE := cookie_samesite }

/-- Whether construction failed with a validation error. -/
def Except.isErr : Except String OIDCSettings → Bool
  | .error _ => true
  | .ok _ => false

/-- Example configuration used by the concrete witnesses below (matching
the spec scenario `CLIENT_ID=abc123`, with the default optional fields). -/
def exampleCfg : OIDCSettings :=
  { CLIENT_ID := "abc123", CLIENT_SECRET := "s3cret",
    ISSUER_URL := "https://idp.example", AUTHORIZE_URL := "https://idp.example/auth",
    TOKEN_URL := "https://idp.example/token", USERINFO_URL := "https://idp.example/userinfo" }

example : locationQuote "/" = "/" := rfl
example : locationQuote "/login" = "/login" := rfl
example : locationQuote "openid email profile" = "openid%20email%20profile" := rfl
set_option maxRecDepth 4000 in
example :
    (login exampleCfg "st1").location =
      some "https://idp.example/auth?client_id=abc123&response_type=code&scope=openid%20email%20profile&redirect_uri=http://localhost:8000/oidc/callback&state=st1" := rfl

namespace Store

theorem get?_set_self (s : Store) (k : String) (v : SessionRecord) :
    (s.set k v).get? k = some v := by
  induction s with
  | nil => simp [set, get?]
  | cons p rest ih =>
    obtain ⟨k2, w⟩ := p
    by_cases h : k2 = k
    · simp [set, h, get?]
    · simp [set, h, get?, ih]

theorem get?_set_ne (s : Store) (k k2 : String) (v : SessionRecord) (h : k2 ≠ k) :
    (s.set k v).get? k2 = s.get? k2 := by
  induction s with
  | nil => simp [set, get?, Ne.symm h]
  | cons p rest ih =>
    obtain ⟨a, w⟩ := p
    by_cases ha : a = k
    · subst ha
      simp [set, get?, Ne.symm h]
    · simp only [set, if_neg ha]
      by_cases ha2 : a = k2
      · simp [get?, ha2]
      · simp [get?, ha2, ih]

theorem containsKey_set (s : Store) (k k2 : String) (v : SessionRecord) :
    (s.set k v).containsKey k2 = (k2 == k || s.containsKey k2) := by
  by_cases h : k2 = k
  · subst h
    simp [containsKey, get?_set_self]
  · simp [containsKey, get?_set_ne s k k2 v h, h]

theorem length_set_of_not_containsKey (s : Store) (k : String) (v : SessionRecord)
    (h : s.containsKey k = false) :
    (s.set k v).length = s.length + 1 := by
  induction s with
  | nil => simp [set]
  | cons p rest ih =>
    obtain ⟨k2, w⟩ := p
    by_cases hk : k2 = k
    · simp [containsKey, get?, hk] at h
    · simp only [containsKey, get?, if_neg hk] at h
      simp [set, hk, ih h]

theorem get?_erase_ne (s : Store) (k k2 : String) (h : k2 ≠ k) :
    (s.erase k).get? k2 = s.get? k2 := by
  induction s with
  | nil => simp [erase]
  | cons p rest ih =>
    obtain ⟨a, w⟩ := p
    by_cases ha : a = k
    · subst ha
      simp [erase, get?, Ne.symm h]
    · simp only [erase, if_neg ha]
      by_cases ha2 : a = k2
      · simp [get?, ha2]
      · simp [get?, ha2, ih]

theorem containsKey_eq_false_of_not_mem (s : Store) (k : String)
    (h : k ∉ s.map Prod.fst) : s.containsKey k = false := by
  induction s with
  | nil => simp [containsKey, get?]
  | cons p rest ih =>
    obtain ⟨a, w⟩ := p
    simp only [List.map_cons, List.mem_cons, not_or] at h
    simp only [containsKey, get?, if_neg (fun hh : a = k => h.1 hh.symm)]
    exact ih h.2

theorem containsKey_erase_self (s : Store) (k : String) (hwf : s.wf) :
    (s.erase k).containsKey k = false := by
  induction s with
  | nil => simp [erase, containsKey, get?]
  | cons p rest ih =>
    obtain ⟨a, w⟩ := p
    simp only [wf, List.map_cons, List.nodup_cons] at hwf
    by_cases ha : a = k
    · subst ha
      simp only [erase, if_pos rfl]
      exact containsKey_eq_false_of_not_mem rest a hwf.1
    · simp only [erase, if_neg ha, containsKey, get?, if_neg ha]
      exact ih hwf.2

end Store

theorem locationQuote_root : locationQuote "/" = "/" := rfl

theorem locationQuote_login_path : locationQuote "/login" = "/login" := rfl

/-- Session record created by a successful callback for a given token
response and userinfo behaviour. -/
def createdRecord (tokenResp : HttpResponse) (userinfo : Option Json → HttpResponse) :
    SessionRecord :=
  { user := (userinfo (tokenResp.body.get? "access_token")).body,
    access_token := tokenResp.body.get? "access_token" }

theorem callback_missing_code_eq (cfg : OIDCSettings) (store : Store)
    (codeParam : Option String) (tokenResp : HttpResponse)
    (userinfo : Option Json → HttpResponse) (sid : String)
    (h : truthyStr codeParam = false) :
    callback cfg store codeParam tokenResp userinfo sid =
      (store, jsonResponse (Json.obj [("error", Json.str "Missing code")]) 400) := by
  simp [callback, h]

theorem callback_token_fail_eq (cfg : OIDCSettings) (store : Store)
    (codeParam : Option String) (tokenResp : HttpResponse)
    (userinfo : Option Json → HttpResponse) (sid : String)
    (hc : truthyStr codeParam = true) (ht : tokenResp.status ≠ 200) :
    callback cfg store codeParam tokenResp userinfo sid =
      (store, jsonResponse (Json.obj [("error", Json.str "Failed to get token")]) 400) := by
  simp [callback, hc, ht]

theorem callback_success_eq (cfg : OIDCSettings) (store : Store)
    (codeParam : Option String) (tokenResp : HttpResponse)
    (userinfo : Option Json → HttpResponse) (sid : String)
    (hc : truthyStr codeParam = true) (ht : tokenResp.status = 200) :
    callback cfg store codeParam tokenResp userinfo sid =
      (store.set sid (createdRecord tokenResp userinfo),
       { status := 307, location := some "/", jsonBody := none,
         cookies := [CookieOp.setCookie "session_id" sid true
                       cfg.COOKIE_SECURE cfg.COOKIE_SAMESITE] }) := by
  simp [callback, hc, ht, redirectResponse, locationQuote_root, createdRecord]

theorem callback_fail_store (cfg : OIDCSettings) (store : Store)
    (codeParam : Option String) (tokenResp : HttpResponse)
    (userinfo : Option Json → HttpResponse) (sid : String)
    (h : callbackSucceeds codeParam tokenResp = false) :
    (callback cfg store codeParam tokenResp userinfo sid).1 = store := by
  unfold callbackSucceeds at h
  cases hc : truthyStr codeParam with
  | false =>
      rw [callback_missing_code_eq cfg store codeParam tokenResp userinfo sid hc]
  | true =>
      rw [hc] at h
      simp only [Bool.true_and] at h
      have ht : tokenResp.status ≠ 200 := by
        intro hh
        rw [hh] at h
        simp at h
      rw [callback_token_fail_eq cfg store codeParam tokenResp userinfo sid hc ht]

theorem callback_succ_store (cfg : OIDCSettings) (store : Store)
    (codeParam : Option String) (tokenResp : HttpResponse)
    (userinfo : Option Json → HttpResponse) (sid : String)
    (h : callbackSucceeds codeParam tokenResp = true) :
    (callback cfg store codeParam tokenResp userinfo sid).1 =
      store.set sid (createdRecord tokenResp userinfo) := by
  unfold callbackSucceeds at h
  simp only [Bool.and_eq_true] at h
  obtain ⟨hc, ht⟩ := h
  have ht2 : tokenResp.status = 200 := by simpa using ht
  rw [callback_success_eq cfg store codeParam tokenResp userinfo sid hc ht2]

theorem callback_containsKey_mono (cfg : OIDCSettings) (store : Store)
    (codeParam : Option String) (tokenResp : HttpResponse)
    (userinfo : Option Json → HttpResponse) (sid id : String)
    (hid : store.containsKey id = true) :
    ((callback cfg store codeParam tokenResp userinfo sid).1).containsKey id = true := by
  cases hs : callbackSucceeds codeParam tokenResp with
  | false =>
      rw [callback_fail_store cfg store codeParam tokenResp userinfo sid hs]
      exact hid
  | true =>
      rw [callback_succ_store cfg store codeParam tokenResp userinfo sid hs,
        Store.containsKey_set]
      simp [hid]

theorem runCallbacks_containsKey_mono (cfg : OIDCSettings)
    (userinfo : Option Json → HttpResponse) (reqs : List CallbackReq) :
    ∀ (store : Store) (id : String), store.containsKey id = true →
      (runCallbacks cfg userinfo store reqs).containsKey id = true := by
  induction reqs with
  | nil => intro store id hid; exact hid
  | cons r rest ih =>
      intro store id hid
      exact ih _ id
        (callback_containsKey_mono cfg store r.codeParam r.tokenResp userinfo r.newSessionId id hid)

theorem issuedIds_cons_succ (r : CallbackReq) (rest : List CallbackReq)
    (h : callbackSucceeds r.codeParam r.tokenResp = true) :
    issuedIds (r :: rest) = r.newSessionId :: issuedIds rest := by
  simp [issuedIds, List.filter, h]

theorem issuedIds_cons_fail (r : CallbackReq) (rest : List CallbackReq)
    (h : callbackSucceeds r.codeParam r.tokenResp = false) :
    issuedIds (r :: rest) = issuedIds rest := by
  simp [issuedIds, List.filter, h]

/-- Token endpoint success response from the spec scenario
(`{"access_token": "tok1"}`). -/
def tokenRespOk : HttpResponse :=
  { status := 200, body := Json.obj [("access_token", Json.str "tok1")] }

/-- Userinfo behaviour from the spec scenario: every bearer token gets
`200 {"email": "a@b.com"}`. -/
def userinfoOk : Option Json → HttpResponse :=
  fun _ => { status := 200, body := Json.obj [("email", Json.str "a@b.com")] }

/-- C1: for every callback request carrying a (truthy) code, when the token
endpoint responds with status 200, the controller stores exactly one
session record holding the fetched identity claims and the returned access
token under the newly generated session identifier, and returns a redirect
to the application root whose Set-Cookie sets `session_id` to that same
identifier with HttpOnly always on, Secure equal to `COOKIE_SECURE`, and
SameSite equal to `COOKIE_SAMESITE`. -/
theorem callback_success_stores_session_and_sets_cookie
    (cfg : OIDCSettings) (store : Store) (c : String)
    (tokenResp : HttpResponse) (userinfo : Option Json → HttpResponse) (sid : String)
    (hc : c ≠ "") (ht : tokenResp.status = 200) :
    callback cfg store (some c) tokenResp userinfo sid =
      (store.set sid
         { user := (userinfo (tokenResp.body.get? "access_token")).body,
           access_token := tokenResp.body.get? "access_token" },
       { status := 307, location := some "/", jsonBody := none,
         cookies := [CookieOp.setCookie "session_id" sid true
                       cfg.COOKIE_SECURE cfg.COOKIE_SAMESITE] }) ∧
    (callback cfg store (some c) tokenResp userinfo sid).1.get? sid =
      some { user := (userinfo (tokenResp.body.get? "access_token")).body,
             access_token := tokenResp.body.get? "access_token" } ∧
    (store.containsKey sid = false →
      (callback cfg store (some c) tokenResp userinfo sid).1.length = store.length + 1) := by
  have hcc : truthyStr (some c) = true := by simp [truthyStr, hc]
  have he := callback_success_eq cfg store (some c) tokenResp userinfo sid hcc ht
  refine ⟨?_, ?_, ?_⟩
  · simpa [createdRecord] using he
  · rw [he]
    simp [Store.get?_set_self, createdRecord]
  · intro hfresh
    rw [he]
    simpa using Store.length_set_of_not_containsKey store sid _ hfresh

/-- C1 witness: the spec scenario `callback?code=xyz` with token body
`{"access_token":"tok1"}` and userinfo `{"email":"a@b.com"}` against the
empty store. -/
theorem callback_success_stores_session_and_sets_cookie_witness :
    ("xyz" ≠ "" ∧ tokenRespOk.status = 200) ∧
    (callback exampleCfg [] (some "xyz") tokenRespOk userinfoOk "sid-1" =
      (Store.set [] "sid-1"
         { user := (userinfoOk (tokenRespOk.body.get? "access_token")).body,
           access_token := tokenRespOk.body.get? "access_token" },
       { status := 307, location := some "/", jsonBody := none,
         cookies := [CookieOp.setCookie "session_id" "sid-1" true
                       exampleCfg.COOKIE_SECURE exampleCfg.COOKIE_SAMESITE] }) ∧
     (callback exampleCfg [] (some "xyz") tokenRespOk userinfoOk "sid-1").1.get? "sid-1" =
       some { user := (userinfoOk (tokenRespOk.body.get? "access_token")).body,
              access_token := tokenRespOk.body.get? "access_token" } ∧
     (Store.containsKey [] "sid-1" = false →
       (callback exampleCfg [] (some "xyz") tokenRespOk userinfoOk "sid-1").1.length =
         ([] : Store).length + 1)) :=
  ⟨⟨by decide, rfl⟩,
   callback_success_stores_session_and_sets_cookie exampleCfg [] "xyz" tokenRespOk
     userinfoOk "sid-1" (by decide) rfl⟩

/-- C2: a callback with no `code` query parameter returns
`400 {"error": "Missing code"}`, and a callback whose token-endpoint
exchange does not come back with status 200 returns
`400 {"error": "Failed to get token"}`; in both failure cases the session
store is returned unchanged — no record is created. -/
theorem callback_failure_responses_and_store_unchanged
    (cfg : OIDCSettings) (store : Store) (codeParam : Option String)
    (tokenResp : HttpResponse) (userinfo : Option Json → HttpResponse) (sid : String) :
    (codeParam = none →
      callback cfg store codeParam tokenResp userinfo sid =
        (store, { status := 400, location := none,
                  jsonBody := some (Json.obj [("error", Json.str "Missing code")]),
                  cookies := [] })) ∧
    (∀ c, codeParam = some c → c ≠ "" → tokenResp.status ≠ 200 →
      callback cfg store codeParam tokenResp userinfo sid =
        (store, { status := 400, location := none,
                  jsonBody := some (Json.obj [("error", Json.str "Failed to get token")]),
                  cookies := [] })) := by
  constructor
  · intro h
    subst h
    have : truthyStr (none : Option String) = false := rfl
    simpa [jsonResponse] using
      callback_missing_code_eq cfg store none tokenResp userinfo sid this
  · intro c hck hcne ht
    subst hck
    have hcc : truthyStr (some c) = true := by simp [truthyStr, hcne]
    simpa [jsonResponse] using
      callback_token_fail_eq cfg store (some c) tokenResp userinfo sid hcc ht

/-- C2 witness: the missing-code scenario and a 403 token-endpoint reply,
both against the empty store. -/
theorem callback_failure_responses_and_store_unchanged_witness :
    callback exampleCfg [] none tokenRespOk userinfoOk "sid-2" =
      ([], { status := 400, location := none,
             jsonBody := some (Json.obj [("error", Json.str "Missing code")]),
             cookies := [] }) ∧
    callback exampleCfg [] (some "xyz") { status := 403, body := Json.obj [] }
        userinfoOk "sid-2" =
      ([], { status := 400, location := none,
             jsonBody := some (Json.obj [("error", Json.str "Failed to get token")]),
             cookies := [] }) :=
  ⟨(callback_failure_responses_and_store_unchanged exampleCfg [] none tokenRespOk
      userinfoOk "sid-2").1 rfl,
   (callback_failure_responses_and_store_unchanged exampleCfg []
      (some "xyz") { status := 403, body := Json.obj [] } userinfoOk "sid-2").2
     "xyz" rfl (by decide) (by decide)⟩

/-- Userinfo endpoint refusing the bearer token: 403 with a JSON error
body (as real providers send). -/
def userinfoDenied : Option Json → HttpResponse :=
  fun _ => { status := 403, body := Json.obj [("error", Json.str "forbidden")] }

/-- C4 counterexample: the token endpoint succeeds but the userinfo
endpoint answers 403; the controller nevertheless returns the 307 success
redirect (no 4xx) and creates a session record, because
`user_resp.status_code` is never inspected in `callback`. -/
theorem callback_ignores_userinfo_failure_counterexample :
    tokenRespOk.status = 200 ∧
    (userinfoDenied (tokenRespOk.body.get? "access_token")).status = 403 ∧
    (callback exampleCfg [] (some "xyz") tokenRespOk userinfoDenied "sid-4").2.status = 307 ∧
    (callback exampleCfg [] (some "xyz") tokenRespOk userinfoDenied "sid-4").2.jsonBody = none ∧
    (callback exampleCfg [] (some "xyz") tokenRespOk userinfoDenied "sid-4").1.length = 1 :=
  ⟨rfl, rfl, rfl, rfl, rfl⟩

/-- C4 amended: when the token endpoint succeeds, `callback` never
inspects the userinfo response status: for every userinfo behaviour
(including non-success responses) it creates a session record from the
userinfo JSON body and returns the success redirect — no 4xx is surfaced
for a userinfo failure. -/
theorem callback_userinfo_status_never_checked
    (cfg : OIDCSettings) (store : Store) (c : String)
    (tokenResp : HttpResponse) (userinfo : Option Json → HttpResponse) (sid : String)
    (hc : c ≠ "") (ht : tokenResp.status = 200) :
    (callback cfg store (some c) tokenResp userinfo sid).2.status = 307 ∧
    (callback cfg store (some c) tokenResp userinfo sid).2.jsonBody = none ∧
    (callback cfg store (some c) tokenResp userinfo sid).1.containsKey sid = true ∧
    (callback cfg store (some c) tokenResp userinfo sid).1.get? sid =
      some { user := (userinfo (tokenResp.body.get? "access_token")).body,
             access_token := tokenResp.body.get? "access_token" } := by
  have hcc : truthyStr (some c) = true := by simp [truthyStr, hc]
  have he := callback_success_eq cfg store (some c) tokenResp userinfo sid hcc ht
  refine ⟨?_, ?_, ?_, ?_⟩
  · rw [he]
  · rw [he]
  · rw [he]
    simp [Store.containsKey_set]
  · rw [he]
    simp [Store.get?_set_self, createdRecord]

/-- C4 amended witness: the 403-userinfo scenario evaluated concretely. -/
theorem callback_userinfo_status_never_checked_witness :
    ("xyz" ≠ "" ∧ tokenRespOk.status = 200) ∧
    ((callback exampleCfg [] (some "xyz") tokenRespOk userinfoDenied "sid-4b").2.status = 307 ∧
     (callback exampleCfg [] (some "xyz") tokenRespOk userinfoDenied "sid-4b").2.jsonBody = none ∧
     (callback exampleCfg [] (some "xyz") tokenRespOk userinfoDenied "sid-4b").1.containsKey "sid-4b" = true ∧
     (callback exampleCfg [] (some "xyz") tokenRespOk userinfoDenied "sid-4b").1.get? "sid-4b" =
       some { user := (userinfoDenied (tokenRespOk.body.get? "access_token")).body,
              access_token := tokenRespOk.body.get? "access_token" }) :=
  ⟨⟨by decide, rfl⟩,
   callback_userinfo_status_never_checked exampleCfg [] "xyz" tokenRespOk userinfoDenied
     "sid-4b" (by decide) rfl⟩

/-- Token endpoint response with status 200 whose JSON body carries no
`access_token` field. -/
def tokenRespNoAccessTok : HttpResponse :=
  { status := 200, body := Json.obj [("token_type", Json.str "Bearer")] }

/-- C10: when the token endpoint answers 200 without an `access_token`
field, `callback` still treats the exchange as a success: the userinfo
endpoint is queried with bearer token `None`, a session record with
`access_token = None` is created, the success redirect with the session
cookie is returned, and any later `exchange_token` on that session yields
no token. -/
theorem callback_success_without_access_token
    (cfg : OIDCSettings) (store : Store) (c : String)
    (tokenResp : HttpResponse) (userinfo : Option Json → HttpResponse) (sid : String)
    (hc : c ≠ "") (ht : tokenResp.status = 200)
    (hat : tokenResp.body.get? "access_token" = none) :
    (callback cfg store (some c) tokenResp userinfo sid).1.get? sid =
      some { user := (userinfo none).body, access_token := none } ∧
    (callback cfg store (some c) tokenResp userinfo sid).2 =
      { status := 307, location := some "/", jsonBody := none,
        cookies := [CookieOp.setCookie "session_id" sid true
                      cfg.COOKIE_SECURE cfg.COOKIE_SAMESITE] } ∧
    (∀ (target : String) (exchangeResp : HttpResponse),
      exchange_token (callback cfg store (some c) tokenResp userinfo sid).1
        sid target exchangeResp = none) := by
  have hcc : truthyStr (some c) = true := by simp [truthyStr, hc]
  have he := callback_success_eq cfg store (some c) tokenResp userinfo sid hcc ht
  have hrec : createdRecord tokenResp userinfo =
      { user := (userinfo none).body, access_token := none } := by
    simp [createdRecord, hat]
  refine ⟨?_, ?_, ?_⟩
  · rw [he]
    simp [Store.get?_set_self, hrec]
  · rw [he]
  · intro target exchangeResp
    rw [he]
    simp only
    unfold exchange_token
    have h1 : (Store.set store sid (createdRecord tokenResp userinfo)).containsKey sid = true := by
      simp [Store.containsKey_set]
    have h2 : (Store.set store sid (createdRecord tokenResp userinfo)).get? sid =
        some { user := (userinfo none).body, access_token := none } := by
      simp [Store.get?_set_self, hrec]
    rw [h1, h2]
    simp [Json.truthyOpt]

/-- C10 witness: a 200 token response whose body only holds `token_type`,
evaluated concretely, with a concrete later exchange attempt. -/
theorem callback_success_without_access_token_witness :
    ("xyz" ≠ "" ∧ tokenRespNoAccessTok.status = 200 ∧
      tokenRespNoAccessTok.body.get? "access_token" = none) ∧
    ((callback exampleCfg [] (some "xyz") tokenRespNoAccessTok userinfoOk "sid-10").1.get? "sid-10" =
       some { user := (userinfoOk none).body, access_token := none } ∧
     (callback exampleCfg [] (some "xyz") tokenRespNoAccessTok userinfoOk "sid-10").2 =
       { status := 307, location := some "/", jsonBody := none,
         cookies := [CookieOp.setCookie "session_id" "sid-10" true
                       exampleCfg.COOKIE_SECURE exampleCfg.COOKIE_SAMESITE] } ∧
     exchange_token (callback exampleCfg [] (some "xyz") tokenRespNoAccessTok userinfoOk "sid-10").1
       "sid-10" "svc-a" { status := 200, body := Json.obj [("access_token", Json.str "t2")] } = none) :=
  ⟨⟨by decide, rfl, rfl⟩,
   (callback_success_without_access_token exampleCfg [] "xyz" tokenRespNoAccessTok
      userinfoOk "sid-10" (by decide) rfl rfl).1,
   (callback_success_without_access_token exampleCfg [] "xyz" tokenRespNoAccessTok
      userinfoOk "sid-10" (by decide) rfl rfl).2.1,
   (callback_success_without_access_token exampleCfg [] "xyz" tokenRespNoAccessTok
      userinfoOk "sid-10" (by decide) rfl rfl).2.2 "svc-a"
     { status := 200, body := Json.obj [("access_token", Json.str "t2")] }⟩

/-- C5: logout deletes the record named by a present (truthy) session
cookie when it exists in the store, treats an absent cookie or an unknown
session id as a no-op on the store (idempotent), and in every case
redirects to `/login` while deleting the `session_id` cookie. -/
theorem logout_deletes_session_and_clears_cookie
    (store : Store) (cookie : Option String) :
    (∀ sid, cookie = some sid → sid ≠ "" → store.containsKey sid = true →
       (logout store cookie).1 = store.erase sid ∧
       (store.wf → ((logout store cookie).1).containsKey sid = false)) ∧
    (cookie = none → (logout store cookie).1 = store) ∧
    (∀ sid, cookie = some sid → store.containsKey sid = false →
       (logout store cookie).1 = store) ∧
    (logout store cookie).2 =
      { status := 307, location := some "/login", jsonBody := none,
        cookies := [CookieOp.deleteCookie "session_id"] } := by
  refine ⟨?_, ?_, ?_, ?_⟩
  · intro sid hck hne hin
    subst hck
    have hb : (sid != "") = true := by simp [hne]
    constructor
    · simp [logout, hb, hin]
    · intro hwf
      have h1 : (logout store (some sid)).1 = store.erase sid := by
        simp [logout, hb, hin]
      rw [h1]
      exact Store.containsKey_erase_self store sid hwf
  · intro h
    subst h
    rfl
  · intro sid hck hin
    subst hck
    by_cases he : sid = ""
    · subst he
      simp [logout]
    · have hb : (sid != "") = true := by simp [he]
      simp [logout, hb, hin]
  · cases cookie <;> rfl

/-- Store fixture holding the spec scenario session. -/
def storeOne : Store :=
  [("sid-5", { user := Json.obj [("email", Json.str "a@b.com")],
               access_token := some (Json.str "tok1") })]

/-- C5 witness: logout with a cookie referencing the one existing session,
evaluated concretely. -/
theorem logout_deletes_session_and_clears_cookie_witness :
    (some "sid-5" = some "sid-5" ∧ "sid-5" ≠ "" ∧
      Store.containsKey storeOne "sid-5" = true ∧ storeOne.wf) ∧
    ((logout storeOne (some "sid-5")).1 = Store.erase storeOne "sid-5" ∧
     ((logout storeOne (some "sid-5")).1).containsKey "sid-5" = false ∧
     (logout storeOne (some "sid-5")).2 =
       { status := 307, location := some "/login", jsonBody := none,
         cookies := [CookieOp.deleteCookie "session_id"] }) :=
  ⟨⟨rfl, by decide, rfl, by simp [storeOne, Store.wf]⟩,
   ((logout_deletes_session_and_clears_cookie storeOne (some "sid-5")).1
      "sid-5" rfl (by decide) rfl).1,
   ((logout_deletes_session_and_clears_cookie storeOne (some "sid-5")).1
      "sid-5" rfl (by decide) rfl).2 (by simp [storeOne, Store.wf]),
   (logout_deletes_session_and_clears_cookie storeOne (some "sid-5")).2.2.2⟩

/-- Store fixture for the token-exchange claims. -/
def storeExch : Store :=
  [("sid-3", { user := Json.obj [("email", Json.str "a@b.com")],
               access_token := some (Json.str "tok1") })]

/-- C3 counterexample: the session is known, holds a truthy access token
and the provider answers 200, yet `exchange_token` returns no token
because the 200 body carries no `access_token` field — so "returns None
exactly when session unknown / token absent / provider non-success" fails
in the only-if direction. -/
theorem exchange_token_none_on_success_counterexample :
    Store.containsKey storeExch "sid-3" = true ∧
    Store.get? storeExch "sid-3" =
      some { user := Json.obj [("email", Json.str "a@b.com")],
             access_token := some (Json.str "tok1") } ∧
    Json.truthyOpt (some (Json.str "tok1")) = true ∧
    ({ status := 200, body := Json.obj [("token_type", Json.str "Bearer")] } : HttpResponse).status = 200 ∧
    exchange_token storeExch "sid-3" "svc-a"
      { status := 200, body := Json.obj [("token_type", Json.str "Bearer")] } = none :=
  ⟨rfl, rfl, rfl, rfl, rfl⟩

/-- C3 amended: `exchange_token` returns no token when the session id is
unknown, when the stored session has no (truthy) access token, when the
provider responds non-success, and additionally when the provider's
success body lacks an `access_token` field; a token is returned only on a
200 provider response carrying that field.  The embedding is a total
function: every expected failure is the ordinary value `none`, never an
exception. -/
theorem exchange_token_failure_conditions
    (store : Store) (sid target : String) (resp : HttpResponse) :
    (store.containsKey sid = false → exchange_token store sid target resp = none) ∧
    (∀ r, store.get? sid = some r → Json.truthyOpt r.access_token = false →
       exchange_token store sid target resp = none) ∧
    (resp.status ≠ 200 → exchange_token store sid target resp = none) ∧
    (resp.body.get? "access_token" = none → exchange_token store sid target resp = none) ∧
    (∀ t, exchange_token store sid target resp = some t →
       resp.status = 200 ∧ resp.body.get? "access_token" = some t) := by
  refine ⟨?_, ?_, ?_, ?_, ?_⟩
  · intro h
    simp [exchange_token, h]
  · intro r hr htr
    have hck : store.containsKey sid = true := by simp [Store.containsKey, hr]
    simp [exchange_token, hck, hr, htr]
  · intro hst
    simp [exchange_token, hst]
  · intro hat
    simp [exchange_token, hat]
  · intro t h
    by_cases h1 : store.containsKey sid = true
    · rcases hr : store.get? sid with _ | r
      · rw [Store.containsKey, hr] at h1
        simp at h1
      · by_cases h2 : Json.truthyOpt r.access_token = true
        · by_cases h3 : resp.status = 200
          · refine ⟨h3, ?_⟩
            simpa [exchange_token, h1, hr, h2, h3] using h
          · simp [exchange_token, h1, hr, h2, h3] at h
        · simp [exchange_token, h1, hr, Bool.eq_false_iff.mpr h2] at h
    · have h1f : store.containsKey sid = false := by
        simpa using h1
      simp [exchange_token, h1f] at h

/-- C3 witness: spec scenarios 5 (unknown session id) and 6 (provider
answers 403 for a valid session), both yielding no token. -/
theorem exchange_token_failure_conditions_witness :
    (Store.containsKey [] "unknown-id" = false ∧
      exchange_token [] "unknown-id" "svc-a" tokenRespOk = none) ∧
    (({ status := 403, body := Json.obj [] } : HttpResponse).status ≠ 200 ∧
      exchange_token storeExch "sid-3" "svc-a"
        { status := 403, body := Json.obj [] } = none) :=
  ⟨⟨rfl, (exchange_token_failure_conditions [] "unknown-id" "svc-a" tokenRespOk).1 rfl⟩,
   ⟨by decide,
    (exchange_token_failure_conditions storeExch "sid-3" "svc-a"
       { status := 403, body := Json.obj [] }).2.2.1 (by decide)⟩⟩

/-- C6 counterexample: `login` returns a redirect built with starlette's
`RedirectResponse` default status code, which is 307, not the 302 the
claim states. -/
theorem login_status_not_302_counterexample :
    (login exampleCfg "st1").status = 307 ∧ (login exampleCfg "st1").status ≠ 302 :=
  ⟨rfl, by decide⟩

set_option maxRecDepth 4000 in
/-- C6 amended: `login` returns a 307 redirect (starlette's
`RedirectResponse` default) whose Location is the percent-quoting of
`{AUTHORIZE_URL}?client_id={CLIENT_ID}&response_type=code&scope={SCOPE}&redirect_uri={REDIRECT_URI}&state={state}`
with a freshly drawn `state`; under the default scope the rendered header
contains `scope=openid%20email%20profile`, as the concrete
`CLIENT_ID=abc123` scenario shows. -/
theorem login_redirect_location_structure (cfg : OIDCSettings) (state : String) :
    login cfg state =
      { status := 307,
        location := some (locationQuote (cfg.AUTHORIZE_URL ++ "?client_id=" ++ cfg.CLIENT_ID ++
          "&response_type=code&scope=" ++ cfg.SCOPE ++ "&redirect_uri=" ++ cfg.REDIRECT_URI ++
          "&state=" ++ state)),
        jsonBody := none, cookies := [] } ∧
    (login exampleCfg "st1").location =
      some "https://idp.example/auth?client_id=abc123&response_type=code&scope=openid%20email%20profile&redirect_uri=http://localhost:8000/oidc/callback&state=st1" := by
  constructor
  · simp only [login, redirectResponse, List.map, String.intercalate,
      String.intercalate.go, String.append_assoc]
    rfl
  · rfl

/-- C7: session records are only created by `callback` and only deleted by
`logout`: `login` and `exchange_token` leave the session store completely
unchanged, `logout` removes at most the single record named by the request
cookie (every other binding is untouched, and the result is either the
store itself or the store with that one binding erased), and `callback`
touches no binding other than the one under its newly generated id. -/
theorem session_store_mutation_paths
    (cfg : OIDCSettings) (store : Store) (state sid target : String)
    (resp : HttpResponse) (cookie codeParam : Option String)
    (tokenResp : HttpResponse) (userinfo : Option Json → HttpResponse) (newId : String) :
    (loginStep cfg store state).1 = store ∧
    (exchangeTokenStep store sid target resp).1 = store ∧
    (∀ k, cookie ≠ some k → ((logout store cookie).1).get? k = store.get? k) ∧
    ((logout store cookie).1 = store ∨
       ∃ s2, cookie = some s2 ∧ (logout store cookie).1 = store.erase s2) ∧
    (∀ k, k ≠ newId →
       ((callback cfg store codeParam tokenResp userinfo newId).1).get? k = store.get? k) := by
  refine ⟨rfl, rfl, ?_, ?_, ?_⟩
  · intro k hk
    cases cookie with
    | none => rfl
    | some s2 =>
        have hne : k ≠ s2 := fun h => hk (by rw [h])
        by_cases hcond : (s2 != "" && store.containsKey s2) = true
        · simp only [logout, hcond, if_true]
          exact Store.get?_erase_ne store s2 k hne
        · simp [logout, hcond]
  · cases cookie with
    | none => exact Or.inl rfl
    | some s2 =>
        by_cases hcond : (s2 != "" && store.containsKey s2) = true
        · exact Or.inr ⟨s2, rfl, by simp only [logout, hcond, if_true]⟩
        · exact Or.inl (by simp [logout, hcond])
  · intro k hk
    cases hs : callbackSucceeds codeParam tokenResp with
    | false =>
        rw [callback_fail_store cfg store codeParam tokenResp userinfo newId hs]
    | true =>
        rw [callback_succ_store cfg store codeParam tokenResp userinfo newId hs]
        exact Store.get?_set_ne store newId k _ hk

/-- C7 witness: the frame conditions evaluated on the one-session store
with concrete inputs (a logout with a cookie naming a different session,
and a callback creating a fresh id). -/
theorem session_store_mutation_paths_witness :
    (loginStep exampleCfg storeOne "st1").1 = storeOne ∧
    (exchangeTokenStep storeOne "sid-5" "svc-a" tokenRespOk).1 = storeOne ∧
    ((logout storeOne (some "other")).1).get? "sid-5" = Store.get? storeOne "sid-5" ∧
    ((callback exampleCfg storeOne (some "xyz") tokenRespOk userinfoOk "sid-new").1).get? "sid-5" =
      Store.get? storeOne "sid-5" :=
  ⟨(session_store_mutation_paths exampleCfg storeOne "st1" "sid-5" "svc-a" tokenRespOk
      (some "other") (some "xyz") tokenRespOk userinfoOk "sid-new").1,
   (session_store_mutation_paths exampleCfg storeOne "st1" "sid-5" "svc-a" tokenRespOk
      (some "other") (some "xyz") tokenRespOk userinfoOk "sid-new").2.1,
   (session_store_mutation_paths exampleCfg storeOne "st1" "sid-5" "svc-a" tokenRespOk
      (some "other") (some "xyz") tokenRespOk userinfoOk "sid-new").2.2.1 "sid-5" (by decide),
   (session_store_mutation_paths exampleCfg storeOne "st1" "sid-5" "svc-a" tokenRespOk
      (some "other") (some "xyz") tokenRespOk userinfoOk "sid-new").2.2.2.2 "sid-5" (by decide)⟩

/-- Environment with every required variable present but `OIDC_CLIENT_ID`
set to the empty string. -/
def envEmptyClientId : Env :=
  [("OIDC_CLIENT_ID", ""), ("OIDC_CLIENT_SECRET", "s3cret"),
   ("OIDC_ISSUER_URL", "https://idp.example"),
   ("OIDC_AUTHORIZE_URL", "https://idp.example/auth"),
   ("OIDC_TOKEN_URL", "https://idp.example/token"),
   ("OIDC_USERINFO_URL", "https://idp.example/userinfo")]

/-- C8 counterexample: pydantic only requires the variable to be present —
an empty string validates as a `str` field — so construction succeeds with
`CLIENT_ID = ""`, contradicting "fails when any required field is missing
or empty". -/
theorem settings_accept_empty_required_counterexample :
    envLookup envEmptyClientId "OIDC_CLIENT_ID" = some "" ∧
    OIDCSettings.fromEnv envEmptyClientId =
      Except.ok { CLIENT_ID := "", CLIENT_SECRET := "s3cret",
                  ISSUER_URL := "https://idp.example",
                  AUTHORIZE_URL := "https://idp.example/auth",
                  TOKEN_URL := "https://idp.example/token",
                  USERINFO_URL := "https://idp.example/userinfo" } :=
  ⟨rfl, rfl⟩

/-- C8 amended: construction fails when any of the six required variables
is absent (an empty string is present and accepted), succeeds with the
declared defaults (`REDIRECT_URI`, `SCOPE`, `COOKIE_SECURE = false`,
`COOKIE_SAMESITE = lax`) when the optional variables are absent, and
rejects a `COOKIE_SAMESITE` outside `lax`/`strict`/`none`. -/
theorem settings_construction_conditions (env : Env) :
    (∀ cid csec iss auth tok uinfo,
       envLookup env "OIDC_CLIENT_ID" = some cid →
       envLookup env "OIDC_CLIENT_SECRET" = some csec →
       envLookup env "OIDC_ISSUER_URL" = some iss →
       envLookup env "OIDC_AUTHORIZE_URL" = some auth →
       envLookup env "OIDC_TOKEN_URL" = some tok →
       envLookup env "OIDC_USERINFO_URL" = some uinfo →
       envLookup env "OIDC_REDIRECT_URI" = none →
       envLookup env "OIDC_SCOPE" = none →
       envLookup env "OIDC_COOKIE_SECURE" = none →
       envLookup env "OIDC_COOKIE_SAMESITE" = none →
       OIDCSettings.fromEnv env =
         Except.ok { CLIENT_ID := cid, CLIENT_SECRET := csec, ISSUER_URL := iss,
                     AUTHORIZE_URL := auth, TOKEN_URL := tok, USERINFO_URL := uinfo,
                     REDIRECT_URI := "http://localhost:8000/oidc/callback",
                     SCOPE := "openid email profile",
                     COOKIE_SECURE := false, COOKIE_SAMESITE := SameSite.lax }) ∧
    ((envLookup env "OIDC_CLIENT_ID" = none ∨
      envLookup env "OIDC_CLIENT_SECRET" = none ∨
      envLookup env "OIDC_ISSUER_URL" = none ∨
      envLookup env "OIDC_AUTHORIZE_URL" = none ∨
      envLookup env "OIDC_TOKEN_URL" = none ∨
      envLookup env "OIDC_USERINFO_URL" = none) →
      (OIDCSettings.fromEnv env).isErr = true) ∧
    (∀ s, envLookup env "OIDC_COOKIE_SAMESITE" = some s → parseSameSite s = none →
      (OIDCSettings.fromEnv env).isErr = true) := by
  refine ⟨?_, ?_, ?_⟩
  · intro cid csec iss auth tok uinfo h1 h2 h3 h4 h5 h6 h7 h8 h9 h10
    simp [OIDCSettings.fromEnv, h1, h2, h3, h4, h5, h6, h7, h8, h9, h10]
  · intro h
    cases h1 : envLookup env "OIDC_CLIENT_ID" with
    | none => simp [OIDCSettings.fromEnv, h1, Except.isErr]
    | some cid =>
      cases h2 : envLookup env "OIDC_CLIENT_SECRET" with
      | none => simp [OIDCSettings.fromEnv, h1, h2, Except.isErr]
      | some csec =>
        cases h3 : envLookup env "OIDC_ISSUER_URL" with
        | none => simp [OIDCSettings.fromEnv, h1, h2, h3, Except.isErr]
        | some iss =>
          cases h4 : envLookup env "OIDC_AUTHORIZE_URL" with
          | none => simp [OIDCSettings.fromEnv, h1, h2, h3, h4, Except.isErr]
          | some auth =>
            cases h5 : envLookup env "OIDC_TOKEN_URL" with
            | none => simp [OIDCSettings.fromEnv, h1, h2, h3, h4, h5, Except.isErr]
            | some tok =>
              cases h6 : envLookup env "OIDC_USERINFO_URL" with
              | none => simp [OIDCSettings.fromEnv, h1, h2, h3, h4, h5, h6, Except.isErr]
              | some uinfo =>
                rcases h with h | h | h | h | h | h <;>
                  simp only [h] at h1 h2 h3 h4 h5 h6 <;> contradiction
  · intro s hs hp
    cases h1 : envLookup env "OIDC_CLIENT_ID" with
    | none => simp [OIDCSettings.fromEnv, h1, Except.isErr]
    | some cid =>
      cases h2 : envLookup env "OIDC_CLIENT_SECRET" with
      | none => simp [OIDCSettings.fromEnv, h1, h2, Except.isErr]
      | some csec =>
        cases h3 : envLookup env "OIDC_ISSUER_URL" with
        | none => simp [OIDCSettings.fromEnv, h1, h2, h3, Except.isErr]
        | some iss =>
          cases h4 : envLookup env "OIDC_AUTHORIZE_URL" with
          | none => simp [OIDCSettings.fromEnv, h1, h2, h3, h4, Except.isErr]
          | some auth =>
            cases h5 : envLookup env "OIDC_TOKEN_URL" with
            | none => simp [OIDCSettings.fromEnv, h1, h2, h3, h4, h5, Except.isErr]
            | some tok =>
              cases h6 : envLookup env "OIDC_USERINFO_URL" with
              | none => simp [OIDCSettings.fromEnv, h1, h2, h3, h4, h5, h6, Except.isErr]
              | some uinfo =>
                cases h7 : envLookup env "OIDC_COOKIE_SECURE" with
                | none =>
                    simp [OIDCSettings.fromEnv, h1, h2, h3, h4, h5, h6, h7, hs, hp,
                      Except.isErr]
                | some sb =>
                  cases h8 : parseBoolSetting sb with
                  | none =>
                      simp [OIDCSettings.fromEnv, h1, h2, h3, h4, h5, h6, h7, h8,
                        Except.isErr]
                  | some b =>
                      simp [OIDCSettings.fromEnv, h1, h2, h3, h4, h5, h6, h7, h8, hs, hp,
                        Except.isErr]

/-- Environment holding exactly the six required variables. -/
def envRequiredOnly : Env :=
  [("OIDC_CLIENT_ID", "abc123"), ("OIDC_CLIENT_SECRET", "s3cret"),
   ("OIDC_ISSUER_URL", "https://idp.example"),
   ("OIDC_AUTHORIZE_URL", "https://idp.example/auth"),
   ("OIDC_TOKEN_URL", "https://idp.example/token"),
   ("OIDC_USERINFO_URL", "https://idp.example/userinfo")]

/-- C8 witness: the required-only environment constructs successfully with
all four defaults, and dropping `OIDC_CLIENT_ID` fails. -/
theorem settings_construction_conditions_witness :
    (envLookup envRequiredOnly "OIDC_CLIENT_ID" = some "abc123" ∧
     envLookup envRequiredOnly "OIDC_COOKIE_SAMESITE" = none) ∧
    OIDCSettings.fromEnv envRequiredOnly =
      Except.ok { CLIENT_ID := "abc123", CLIENT_SECRET := "s3cret",
                  ISSUER_URL := "https://idp.example",
                  AUTHORIZE_URL := "https://idp.example/auth",
                  TOKEN_URL := "https://idp.example/token",
                  USERINFO_URL := "https://idp.example/userinfo",
                  REDIRECT_URI := "http://localhost:8000/oidc/callback",
                  SCOPE := "openid email profile",
                  COOKIE_SECURE := false, COOKIE_SAMESITE := SameSite.lax } ∧
    (OIDCSettings.fromEnv (envRequiredOnly.drop 1)).isErr = true :=
  ⟨⟨rfl, rfl⟩,
   (settings_construction_conditions envRequiredOnly).1 "abc123" "s3cret"
     "https://idp.example" "https://idp.example/auth" "https://idp.example/token"
     "https://idp.example/userinfo" rfl rfl rfl rfl rfl rfl rfl rfl rfl rfl,
   (settings_construction_conditions (envRequiredOnly.drop 1)).2.1 (Or.inl rfl)⟩

/-- Two successful callback requests whose `uuid.uuid4()` draws happen to
coincide. -/
def dupIdReqs : List CallbackReq :=
  [{ codeParam := some "xyz", tokenResp := tokenRespOk, newSessionId := "sid-9" },
   { codeParam := some "abc", tokenResp := tokenRespOk, newSessionId := "sid-9" }]

/-- C9 counterexample: the code never checks that the generated identifier
is previously unused — `session_store[session_id] = ...` overwrites.  With
two successful callbacks whose uuid draws coincide, the store ends with a
single record instead of two, so "previously unused / pairwise distinct /
never overwriting" is not guaranteed by the code. -/
theorem callback_duplicate_id_overwrites_counterexample :
    callbackSucceeds (some "xyz") tokenRespOk = true ∧
    callbackSucceeds (some "abc") tokenRespOk = true ∧
    (runCallbacks exampleCfg userinfoOk [] dupIdReqs).length = 1 :=
  ⟨rfl, rfl, rfl⟩

/-- C9 amended: provided the identifiers drawn from the UUID source are
pairwise distinct and unused in the starting store (which `uuid.uuid4()`
makes overwhelmingly likely but the code does not enforce), every
successful callback adds exactly one new record — the final store grew by
exactly the number of issued identifiers and contains every one of
them. -/
theorem runCallbacks_distinct_ids_grow_store (cfg : OIDCSettings)
    (userinfo : Option Json → HttpResponse) (reqs : List CallbackReq) :
    ∀ store : Store, (issuedIds reqs).Nodup →
      (∀ id ∈ issuedIds reqs, store.containsKey id = false) →
      (runCallbacks cfg userinfo store reqs).length =
          store.length + (issuedIds reqs).length ∧
      (∀ id ∈ issuedIds reqs,
          (runCallbacks cfg userinfo store reqs).containsKey id = true) := by
  induction reqs with
  | nil =>
      intro store _ _
      constructor
      · simp [runCallbacks, issuedIds]
      · intro id hid
        simp [issuedIds] at hid
  | cons r rest ih =>
      intro store hnd hfresh
      cases hs : callbackSucceeds r.codeParam r.tokenResp with
      | false =>
          have hids := issuedIds_cons_fail r rest hs
          rw [hids] at hnd hfresh
          have hstep :
              (callback cfg store r.codeParam r.tokenResp userinfo r.newSessionId).1 = store :=
            callback_fail_store cfg store r.codeParam r.tokenResp userinfo r.newSessionId hs
          constructor
          · show (runCallbacks cfg userinfo
                (callback cfg store r.codeParam r.tokenResp userinfo r.newSessionId).1 rest).length = _
            rw [hstep, hids]
            exact (ih store hnd hfresh).1
          · intro id hid
            rw [hids] at hid
            show (runCallbacks cfg userinfo
                (callback cfg store r.codeParam r.tokenResp userinfo r.newSessionId).1 rest).containsKey id = true
            rw [hstep]
            exact (ih store hnd hfresh).2 id hid
      | true =>
          have hids := issuedIds_cons_succ r rest hs
          rw [hids] at hnd hfresh
          have hnodup := List.nodup_cons.mp hnd
          have hsidfresh : store.containsKey r.newSessionId = false :=
            hfresh _ (List.mem_cons_self _ _)
          have hstep :
              (callback cfg store r.codeParam r.tokenResp userinfo r.newSessionId).1 =
                store.set r.newSessionId (createdRecord r.tokenResp userinfo) :=
            callback_succ_store cfg store r.codeParam r.tokenResp userinfo r.newSessionId hs
          have hfresh2 : ∀ id ∈ issuedIds rest,
              (store.set r.newSessionId (createdRecord r.tokenResp userinfo)).containsKey id = false := by
            intro id hid
            rw [Store.containsKey_set]
            have hne : id ≠ r.newSessionId := fun h => hnodup.1 (h ▸ hid)
            simp [hne, hfresh id (List.mem_cons_of_mem _ hid)]
          obtain ⟨ihlen, ihmem⟩ :=
            ih (store.set r.newSessionId (createdRecord r.tokenResp userinfo)) hnodup.2 hfresh2
          constructor
          · show (runCallbacks cfg userinfo
                (callback cfg store r.codeParam r.tokenResp userinfo r.newSessionId).1 rest).length = _
            rw [hstep, ihlen,
              Store.length_set_of_not_containsKey store _ _ hsidfresh, hids]
            simp only [List.length_cons]
            omega
          · intro id hid
            rw [hids] at hid
            show (runCallbacks cfg userinfo
                (callback cfg store r.codeParam r.tokenResp userinfo r.newSessionId).1 rest).containsKey id = true
            rw [hstep]
            rcases List.mem_cons.mp hid with h | h
            · subst h
              apply runCallbacks_containsKey_mono
              rw [Store.containsKey_set]
              simp
            · exact ihmem id h

/-- Two successful callback requests with distinct uuid draws. -/
def freshIdReqs : List CallbackReq :=
  [{ codeParam := some "xyz", tokenResp := tokenRespOk, newSessionId := "sid-9a" },
   { codeParam := some "abc", tokenResp := tokenRespOk, newSessionId := "sid-9b" }]

/-- C9 witness: two successful callbacks with distinct fresh identifiers
against the empty store: the store ends with both records. -/
theorem runCallbacks_distinct_ids_grow_store_witness :
    (issuedIds freshIdReqs).Nodup ∧
    (runCallbacks exampleCfg userinfoOk [] freshIdReqs).length =
      ([] : Store).length + (issuedIds freshIdReqs).length ∧
    (runCallbacks exampleCfg userinfoOk [] freshIdReqs).containsKey "sid-9a" = true ∧
    (runCallbacks exampleCfg userinfoOk [] freshIdReqs).containsKey "sid-9b" = true :=
  ⟨by decide,
   (runCallbacks_distinct_ids_grow_store exampleCfg userinfoOk freshIdReqs []
      (by decide) (fun id _ => rfl)).1,
   (runCallbacks_distinct_ids_grow_store exampleCfg userinfoOk freshIdReqs []
      (by decide) (fun id _ => rfl)).2 "sid-9a" (by decide),
   (runCallbacks_distinct_ids_grow_store exampleCfg userinfoOk freshIdReqs []
      (by decide) (fun id _ => rfl)).2 "sid-9b" (by decide)⟩
